import Mathlib

/-!
Verification of the Swasth-Diet AI chat proxy.

The repository contains two near-identical copies of the chat logic: the
client-side service function `callGeminiApi` (with its UI entry point
`handleChatSend`) and the server-side Express route `POST /chat` in
`src/server/routes/userRoutes.js`.  Both build a profile-context prompt from
the user's data, call the Gemini API with up to `MAX_RETRIES = 5` attempts and
exponential backoff, parse the nested response for text and grounding
citations, and fall back to a fixed apology message when all attempts fail.

This file embeds that logic shallowly: JavaScript field values become an
inductive `JSVal` with JS truthiness, the upstream HTTP interaction becomes a
function from attempt index to an `AttemptOutcome`, and the retry loop becomes
a fuel-indexed recursion that also records the number of upstream calls made
and the backoff delays slept.
-/

namespace SwasthDiet

/-! ## JavaScript value model for user-context fields -/

/-- A JavaScript value as it occurs in the `userData` object: absent
(`undefined`), a string, a number, or an array of strings. -/
inductive JSVal where
  | undef
  | str (s : String)
  | num (n : Int)
  | arr (xs : List String)
deriving DecidableEq, Repr

/-- JavaScript truthiness of a `JSVal`: `undefined` is falsy, a string is
truthy iff non-empty, a number is truthy iff non-zero, an array is always
truthy. -/
def truthy : JSVal → Bool
  | .undef => false
  | .str s => s ≠ ""
  | .num n => n ≠ 0
  | .arr _ => true

/-- String coercion of a `JSVal` as performed by a JS template literal. -/
def display : JSVal → String
  | .undef => "undefined"
  | .str s => s
  | .num n => toString n
  | .arr xs => String.intercalate "," xs

/-- The rendering of the JS expression `v || fb` inside a template literal:
if `v` is truthy it is displayed, otherwise the fallback string is used. -/
def jsOr (v : JSVal) (fb : String) : String :=
  if truthy v then display v else fb

/-- Embedding of the source utility
`const arrayToString = (value) => { if (Array.isArray(value)) return value.join(', '); return value || ''; }`
(identical in the client file and in the server route). -/
def arrayToString (v : JSVal) : JSVal :=
  match v with
  | .arr xs => .str (String.intercalate ", " xs)
  | other => if truthy other then other else .str ""

/-! ## User context and prompt builder -/

/-- The `userData` object consumed by the prompt builder. -/
structure UserContext where
  name : JSVal
  age : JSVal
  weight : JSVal
  height : JSVal
  goal : JSVal
  region : JSVal
  dietPreference : JSVal
  healthIssues : JSVal
  allergies : JSVal
deriving DecidableEq, Repr

/-- The context with every field absent. -/
def emptyUserContext : UserContext :=
  ⟨.undef, .undef, .undef, .undef, .undef, .undef, .undef, .undef, .undef⟩

/-- Rendering of `${userData.name || 'N/A'}`. -/
def renderName (ctx : UserContext) : String := jsOr ctx.name "N/A"

/-- Rendering of `${userData.age || 'N/A'}`. -/
def renderAge (ctx : UserContext) : String := jsOr ctx.age "N/A"

/-- Rendering of `${userData.weight || 'N/A'}`. -/
def renderWeight (ctx : UserContext) : String := jsOr ctx.weight "N/A"

/-- Rendering of `${userData.height || 'N/A'}`. -/
def renderHeight (ctx : UserContext) : String := jsOr ctx.height "N/A"

/-- Rendering of `${userData.goal || 'General Health'}`. -/
def renderGoal (ctx : UserContext) : String := jsOr ctx.goal "General Health"

/-- Rendering of `${userData.region || 'All India'}`. -/
def renderRegion (ctx : UserContext) : String := jsOr ctx.region "All India"

/-- Rendering of `${userData.dietPreference || 'N/A'}`. -/
def renderDietPreference (ctx : UserContext) : String := jsOr ctx.dietPreference "N/A"

/-- Rendering of `${arrayToString(userData.healthIssues) || 'None'}`. -/
def renderHealthIssues (ctx : UserContext) : String :=
  jsOr (arrayToString ctx.healthIssues) "None"

/-- Rendering of `${arrayToString(userData.allergies) || 'None'}`. -/
def renderAllergies (ctx : UserContext) : String :=
  jsOr (arrayToString ctx.allergies) "None"

/-- The `profileContext` template literal, byte for byte (identical in the
client `callGeminiApi` and in the server `POST /chat` route). -/
def profileContext (ctx : UserContext) : String :=
  "\n        User Profile Summary:\n        Name: " ++ renderName ctx ++
  "\n        Age: " ++ renderAge ctx ++
  "\n        Weight: " ++ renderWeight ctx ++ " kg, Height: " ++ renderHeight ctx ++ " cm" ++
  "\n        Goal: " ++ renderGoal ctx ++
  "\n        Region: " ++ renderRegion ctx ++
  "\n        Diet Preference: " ++ renderDietPreference ctx ++
  "\n        Health Issues: " ++ renderHealthIssues ctx ++
  "\n        Allergies: " ++ renderAllergies ctx ++
  "\n    "

/-- The fixed text of the `systemPrompt` template before the second region
interpolation. -/
def systemPromptIntro : String :=
  "\n        You are the Swasth Bharat AI Nutrition Assistant. Your primary goal is to provide accurate, safe, and personalized dietary and nutrition advice tailored for the Indian population.\n\n        Knowledge Base: Your advice MUST be grounded in established Indian nutritional science, citing information relevant to the user\x27s region, diet, and health condition. You MUST use the latest ICMR-NIN Dietary Guidelines for Indians (2024) and data from the Indian Food Composition Tables (IFCT 2017) as your foundation.\n\n        Persona: Be helpful, empathetic, and encouraging. Respond concisely and clearly. Incorporate Hindi greetings (like Namaste) or phrases when appropriate.\n\n        Instructions:\n        1. Use the provided Google Search tool (grounding) to access current, specific, and external data, especially when discussing specific food items, clinical recommendations, or updated guidelines.\n        2. When providing recipe ideas, prioritize ingredients common to the user\x27s specified region ("

/-- The fixed text of the `systemPrompt` template between the region
interpolation and the embedded `profileContext`. -/
def systemPromptMiddle : String :=
  ").\n        3. Always explicitly consider the user\x27s **Health Issues** and **Allergies** in your response.\n        4. Provide the answer in rich, conversational text format.\n\n        "

/-- The `systemPrompt` template literal: fixed instructions, the region
interpolated with fallback `'India'`, and the embedded `profileContext`. -/
def systemPrompt (ctx : UserContext) : String :=
  systemPromptIntro ++ jsOr ctx.region "India" ++ systemPromptMiddle ++
    profileContext ctx ++ "\n    "

/-- The request payload sent to the Gemini endpoint, reduced to the two text
fields that vary: the user query (under `contents`) and the composed system
instruction (under `systemInstruction`). -/
structure GeminiPayload where
  contentsText : String
  systemInstructionText : String
deriving DecidableEq, Repr

/-- Payload construction shared by both copies of the chat logic. -/
def buildPayload (userQuery : String) (userData : UserContext) : GeminiPayload :=
  ⟨userQuery, systemPrompt userData⟩

/-! ## Upstream response model

The Gemini response body, with every level optional exactly where the source
uses optional chaining (`result.candidates?.[0]`, `candidate.content?.parts?.[0]?.text`,
`candidate.groundingMetadata?.groundingAttributions`, `attr.web?.uri`). -/

/-- The `web` sub-object of a grounding attribution. -/
structure WebInfo where
  uri : Option String
  title : Option String
deriving DecidableEq, Repr

/-- One entry of `groundingAttributions`; its `web` field may be absent. -/
structure GroundingAttribution where
  web : Option WebInfo
deriving DecidableEq, Repr

/-- The `groundingMetadata` object of a candidate. -/
structure GroundingMetadata where
  groundingAttributions : Option (List GroundingAttribution)
deriving DecidableEq, Repr

/-- One element of `content.parts`; its `text` field may be absent. -/
structure ContentPart where
  text : Option String
deriving DecidableEq, Repr

/-- The `content` object of a candidate; its `parts` field may be absent. -/
structure CandidateContent where
  parts : Option (List ContentPart)
deriving DecidableEq, Repr

/-- One generated candidate. -/
structure Candidate where
  content : Option CandidateContent
  groundingMetadata : Option GroundingMetadata
deriving DecidableEq, Repr

/-- The parsed JSON body of a Gemini response. -/
structure GeminiResult where
  candidates : Option (List Candidate)
deriving DecidableEq, Repr

/-- One normalized citation source `{ uri: attr.web?.uri, title: attr.web?.title }`,
before and after the truthiness filter. -/
structure Source where
  uri : Option String
  title : Option String
deriving DecidableEq, Repr

/-- The `{ text, sources }` object both copies of the chat logic produce. -/
structure ChatResponse where
  text : String
  sources : List Source
deriving DecidableEq, Repr

/-- JS truthiness of an optional string field: present and non-empty. -/
def truthyOptStr : Option String → Bool
  | none => false
  | some s => s ≠ ""

/-- `result.candidates?.[0]`: the first candidate, if any. -/
def primaryCandidate (r : GeminiResult) : Option Candidate :=
  match r.candidates with
  | none => none
  | some cs => cs.head?

/-- `candidate.content?.parts?.[0]?.text`: the primary text, if present at
every step of the optional chain. -/
def candidateText (c : Candidate) : Option String :=
  match c.content with
  | none => none
  | some ct =>
    match ct.parts with
    | none => none
    | some ps =>
      match ps.head? with
      | none => none
      | some p => p.text

/-- The citation normalizer:
`groundingAttributions.map(attr => ({uri: attr.web?.uri, title: attr.web?.title})).filter(s => s.uri && s.title)`,
with `sources = []` when `groundingMetadata` or `groundingAttributions` is
absent. -/
def extractSources (c : Candidate) : List Source :=
  match c.groundingMetadata with
  | none => []
  | some gm =>
    match gm.groundingAttributions with
    | none => []
    | some attrs =>
      (attrs.map (fun a => Source.mk (Option.bind a.web WebInfo.uri)
          (Option.bind a.web WebInfo.title))).filter
        (fun s => truthyOptStr s.uri && truthyOptStr s.title)

/-! ## One upstream attempt -/

/-- What one `fetch` of the Gemini endpoint can produce: a thrown transport
error, or an HTTP response with a status code and a body (`none` when the
body fails to parse as JSON). -/
inductive AttemptOutcome where
  | transportError
  | httpResponse (status : Nat) (body : Option GeminiResult)
deriving DecidableEq, Repr

/-- `response.ok`: the status is in the 2xx range. -/
def responseOk (status : Nat) : Bool :=
  decide (200 ≤ status) && decide (status ≤ 299)

/-- The body of one iteration of the retry loop: `some r` when the attempt
succeeds with the parsed `{ text, sources }`, `none` when anything throws —
a transport error, a non-`ok` status, an unparsable body, or a body without
a truthy `candidates?.[0].content?.parts?.[0]?.text`. -/
def attemptResult (o : AttemptOutcome) : Option ChatResponse :=
  match o with
  | .transportError => none
  | .httpResponse status body =>
    if responseOk status then
      match body with
      | none => none
      | some r =>
        match primaryCandidate r with
        | none => none
        | some c =>
          match candidateText c with
          | none => none
          | some t => if t = "" then none else some (ChatResponse.mk t (extractSources c))
    else none

/-! ## The retry loop -/

/-- `const MAX_RETRIES = 5;` -/
def MAX_RETRIES : Nat := 5

/-- The backoff delay slept after failed attempt `i` (zero-indexed), in
milliseconds: `Math.pow(2, i) * 1000 + Math.random() * 1000`, with the
`Math.random() * 1000` term abstracted as the parameter `jitter i`. -/
def geminiDelay (jitter : Nat → Rat) (i : Nat) : Rat :=
  2 ^ i * 1000 + jitter i

/-- The retry loop `for (let i = 0; i < MAX_RETRIES; i++) { ... }`, run from
attempt index `i` with `fuel` iterations remaining.  Returns the successful
`ChatResponse` (or `none` when every attempt failed), the number of upstream
calls made, and the list of backoff delays slept, in order. -/
def retryLoop (u : Nat → AttemptOutcome) (jitter : Nat → Rat) :
    Nat → Nat → Option ChatResponse × Nat × List Rat
  | _, 0 => (none, 0, [])
  | i, fuel + 1 =>
    match attemptResult (u i) with
    | some r => (some r, 1, [])
    | none =>
      if fuel = 0 then (none, 1, [])
      else
        match retryLoop u jitter (i + 1) fuel with
        | (res, calls, delays) => (res, calls + 1, geminiDelay jitter i :: delays)

/-- The client fallback `botResponse` returned when the last attempt fails. -/
def clientFallback : ChatResponse :=
  ChatResponse.mk
    "Sorry, I encountered a network error and could not reach the AI. Please check your connection and try again."
    []

/-- The server fallback body returned when the last attempt fails. -/
def serverFallback : ChatResponse :=
  ChatResponse.mk "Sorry, I encountered an error. Please try again." []

/-- The observable behaviour of one run of the client chat service: the
returned `ChatResponse`, the number of upstream calls, and the backoff
delays. -/
structure RunResult where
  response : ChatResponse
  calls : Nat
  delays : List Rat
deriving DecidableEq, Repr

/-- The client-side `callGeminiApi(userQuery, userData)`: build the payload,
run the retry loop, and on exhaustion return the fixed client fallback.  The
upstream environment is a function from the sent payload and the attempt
index to that attempt's outcome. -/
def callGeminiApi (userQuery : String) (userData : UserContext)
    (u : GeminiPayload → Nat → AttemptOutcome) (jitter : Nat → Rat) : RunResult :=
  match retryLoop (u (buildPayload userQuery userData)) jitter 0 MAX_RETRIES with
  | (some r, calls, delays) => RunResult.mk r calls delays
  | (none, calls, delays) => RunResult.mk clientFallback calls delays

/-- The HTTP reply the server route sends: status code and JSON body. -/
structure ServerReply where
  status : Nat
  body : ChatResponse
deriving DecidableEq, Repr

/-- The server-side `POST /chat` route body: same prompt construction and
retry loop; on success it replies `res.json({ text, sources })` (status 200),
on exhaustion `res.status(500).json({ text: <apology>, sources: [] })`.
Returns the reply together with the upstream call count and delays. -/
def serverChatRoute (userQuery : String) (userData : UserContext)
    (u : GeminiPayload → Nat → AttemptOutcome) (jitter : Nat → Rat) :
    ServerReply × Nat × List Rat :=
  match retryLoop (u (buildPayload userQuery userData)) jitter 0 MAX_RETRIES with
  | (some r, calls, delays) => (ServerReply.mk 200 r, calls, delays)
  | (none, calls, delays) => (ServerReply.mk 500 serverFallback, calls, delays)

/-- The client UI entry point `handleChatSend`: when the trimmed input is
empty (or a reply is already being typed) it returns without calling
`callGeminiApi`; otherwise it dispatches the trimmed query.  Returns the
bot response (if any) and the number of upstream network calls made. -/
def handleChatSend (chatInput : String) (isTyping : Bool) (userData : UserContext)
    (u : GeminiPayload → Nat → AttemptOutcome) (jitter : Nat → Rat) :
    Option ChatResponse × Nat :=
  if chatInput.trim = "" || isTyping then (none, 0)
  else
    match callGeminiApi chatInput.trim userData u jitter with
    | r => (some r.response, r.calls)

/-! ## General lemmas about the retry loop -/

/-- The delays the loop sleeps when attempts `i, i+1, …, i+count-1` all fail
and the loop continues: one backoff per failed attempt. -/
def expectedDelays (jitter : Nat → Rat) (i count : Nat) : List Rat :=
  (List.range count).map (fun k => geminiDelay jitter (i + k))

theorem expectedDelays_succ (jitter : Nat → Rat) (i c : Nat) :
    expectedDelays jitter i (c + 1) =
      geminiDelay jitter i :: expectedDelays jitter (i + 1) c := by
  unfold expectedDelays
  rw [List.range_succ_eq_map]
  simp only [List.map_cons, List.map_map, Nat.add_zero]
  congr 1
  apply List.map_congr_left
  intro a _
  simp only [Function.comp_apply]
  exact congrArg (geminiDelay jitter) (by omega)

theorem retryLoop_succ_success (u : Nat → AttemptOutcome) (jitter : Nat → Rat)
    (i fuel : Nat) (r : ChatResponse) (h : attemptResult (u i) = some r) :
    retryLoop u jitter i (fuel + 1) = (some r, 1, []) := by
  conv_lhs => rw [retryLoop]
  rw [h]

theorem retryLoop_succ_fail (u : Nat → AttemptOutcome) (jitter : Nat → Rat)
    (i fuel : Nat) (h : attemptResult (u i) = none) (hf : fuel ≠ 0) :
    retryLoop u jitter i (fuel + 1) =
      ((retryLoop u jitter (i + 1) fuel).1,
       (retryLoop u jitter (i + 1) fuel).2.1 + 1,
       geminiDelay jitter i :: (retryLoop u jitter (i + 1) fuel).2.2) := by
  conv_lhs => rw [retryLoop]
  rw [h]
  simp only [hf, if_false]

theorem retryLoop_all_fail (u : Nat → AttemptOutcome) (jitter : Nat → Rat) :
    ∀ fuel i, (∀ k, k < fuel → attemptResult (u (i + k)) = none) →
      retryLoop u jitter i fuel = (none, fuel, expectedDelays jitter i (fuel - 1)) := by
  intro fuel
  induction fuel with
  | zero =>
    intro i _
    simp [retryLoop, expectedDelays]
  | succ f ih =>
    intro i h
    have h0 : attemptResult (u i) = none := by
      have := h 0 (Nat.succ_pos f)
      simpa using this
    cases f with
    | zero =>
      simp [retryLoop, h0, expectedDelays]
    | succ g =>
      have hrec := ih (i + 1) (fun k hk => by
        have := h (k + 1) (by omega)
        simpa [Nat.add_assoc, Nat.add_comm 1 k] using this)
      rw [retryLoop_succ_fail u jitter i (g + 1) h0 (Nat.succ_ne_zero g)]
      simp only [hrec, Nat.succ_sub_one]
      rw [expectedDelays_succ]

theorem retryLoop_success_at (u : Nat → AttemptOutcome) (jitter : Nat → Rat) :
    ∀ k fuel i r, k < fuel → (∀ m, m < k → attemptResult (u (i + m)) = none) →
      attemptResult (u (i + k)) = some r →
      retryLoop u jitter i fuel = (some r, k + 1, expectedDelays jitter i k) := by
  intro k
  induction k with
  | zero =>
    intro fuel i r hk _ hs
    have hs' : attemptResult (u i) = some r := by simpa using hs
    cases fuel with
    | zero => omega
    | succ f =>
      rw [retryLoop_succ_success u jitter i f r hs']
      simp [expectedDelays]
  | succ m ih =>
    intro fuel i r hk hfail hs
    cases fuel with
    | zero => omega
    | succ f =>
      have h0 : attemptResult (u i) = none := by
        have := hfail 0 (Nat.succ_pos m)
        simpa using this
      have hf : f ≠ 0 := by omega
      have hrec := ih f (i + 1) r (by omega)
        (fun n hn => by
          have := hfail (n + 1) (by omega)
          simpa [Nat.add_assoc, Nat.add_comm 1 n] using this)
        (by
          have heq : i + 1 + m = i + (m + 1) := by omega
          rw [heq]
          exact hs)
      rw [retryLoop_succ_fail u jitter i f h0 hf]
      simp only [hrec]
      rw [expectedDelays_succ]

theorem retryLoop_calls_pos (u : Nat → AttemptOutcome) (jitter : Nat → Rat)
    (fuel i : Nat) (hf : fuel ≠ 0) : 1 ≤ (retryLoop u jitter i fuel).2.1 := by
  cases fuel with
  | zero => omega
  | succ f =>
    cases h : attemptResult (u i) with
    | some r =>
      rw [retryLoop_succ_success u jitter i f r h]
    | none =>
      cases hf0 : f with
      | zero => simp [retryLoop, h]
      | succ g =>
        rw [retryLoop_succ_fail u jitter i (g + 1) h (Nat.succ_ne_zero g)]
        simp

theorem retryLoop_trace (u : Nat → AttemptOutcome) (jitter : Nat → Rat) :
    ∀ fuel i, (retryLoop u jitter i fuel).2.2 =
      expectedDelays jitter i ((retryLoop u jitter i fuel).2.1 - 1) := by
  intro fuel
  induction fuel with
  | zero =>
    intro i
    simp [retryLoop, expectedDelays]
  | succ f ih =>
    intro i
    cases h : attemptResult (u i) with
    | some r =>
      rw [retryLoop_succ_success u jitter i f r h]
      simp [expectedDelays]
    | none =>
      cases hf : f with
      | zero => simp [retryLoop, h, expectedDelays]
      | succ g =>
        have hpos := retryLoop_calls_pos u jitter (g + 1) (i + 1) (Nat.succ_ne_zero g)
        have htr := ih (i + 1)
        rw [hf] at htr
        rw [retryLoop_succ_fail u jitter i (g + 1) h (Nat.succ_ne_zero g)]
        simp only [Nat.add_sub_cancel]
        obtain ⟨c, hc⟩ : ∃ c, (retryLoop u jitter (i + 1) (g + 1)).2.1 = c + 1 :=
          ⟨(retryLoop u jitter (i + 1) (g + 1)).2.1 - 1, by omega⟩
        rw [htr, hc, Nat.add_sub_cancel, expectedDelays_succ]

/-! ## Further helper lemmas and concrete sample inputs -/

theorem responseOk_iff (s : Nat) : responseOk s = true ↔ (200 ≤ s ∧ s ≤ 299) := by
  simp [responseOk]

/-- Inversion principle for one attempt: the loop body yields `some resp`
exactly when the outcome is a 2xx HTTP response whose parsed body has a
non-empty primary-candidate text, and then `resp` is that text together with
the normalized sources. -/
theorem attemptResult_eq_some_iff (o : AttemptOutcome) (resp : ChatResponse) :
    attemptResult o = some resp ↔
      ∃ s body c t, o = .httpResponse s (some body) ∧ responseOk s = true ∧
        primaryCandidate body = some c ∧ candidateText c = some t ∧ t ≠ "" ∧
        resp = ChatResponse.mk t (extractSources c) := by
  cases o with
  | transportError => simp [attemptResult]
  | httpResponse s body =>
    by_cases hok : responseOk s = true
    · cases body with
      | none => simp [attemptResult, hok]
      | some r =>
        cases hc : primaryCandidate r with
        | none => simp [attemptResult, hok, hc]
        | some c =>
          cases ht : candidateText c with
          | none => simp [attemptResult, hok, hc, ht]
          | some t =>
            by_cases hte : t = ""
            · simp [attemptResult, hok, hc, ht, hte]
            · simp only [attemptResult, hok, if_true, hc, ht, hte, ite_false]
              constructor
              · rintro h
                exact ⟨s, r, c, t, rfl, hok, hc, ht, hte, (Option.some_inj.mp h).symm⟩
              · rintro ⟨s', r', c', t', heq, _, hc', ht', _, hresp⟩
                obtain ⟨hs, hr⟩ : s' = s ∧ some r' = some r := by
                  injection heq with h1 h2
                  exact ⟨h1.symm, h2.symm⟩
                obtain rfl : r' = r := Option.some_inj.mp hr
                rw [hc] at hc'
                obtain rfl : c = c' := Option.some_inj.mp hc'
                rw [ht] at ht'
                obtain rfl : t = t' := Option.some_inj.mp ht'
                rw [hresp]
    · have hfalse : attemptResult (.httpResponse s body) = none := by
        simp only [attemptResult]
        rw [if_neg hok]
      rw [hfalse]
      constructor
      · intro h
        exact Option.noConfusion h
      · rintro ⟨s', r', c', t', heq, hok', _⟩
        injection heq with h1 h2
        rw [h1] at hok
        exact absurd hok' hok

/-- The client service reports exactly the retry loop's call count and
delay trace. -/
theorem callGeminiApi_trace (q : String) (ud : UserContext)
    (u : GeminiPayload → Nat → AttemptOutcome) (jitter : Nat → Rat) :
    (callGeminiApi q ud u jitter).calls =
        (retryLoop (u (buildPayload q ud)) jitter 0 MAX_RETRIES).2.1 ∧
      (callGeminiApi q ud u jitter).delays =
        (retryLoop (u (buildPayload q ud)) jitter 0 MAX_RETRIES).2.2 := by
  unfold callGeminiApi
  cases hrl : retryLoop (u (buildPayload q ud)) jitter 0 MAX_RETRIES with
  | mk res rest =>
    cases rest with
    | mk calls delays => cases res <;> simp

/-- The server route reports exactly the retry loop's call count. -/
theorem serverChatRoute_trace (q : String) (ud : UserContext)
    (u : GeminiPayload → Nat → AttemptOutcome) (jitter : Nat → Rat) :
    (serverChatRoute q ud u jitter).2.1 =
      (retryLoop (u (buildPayload q ud)) jitter 0 MAX_RETRIES).2.1 := by
  unfold serverChatRoute
  cases hrl : retryLoop (u (buildPayload q ud)) jitter 0 MAX_RETRIES with
  | mk res rest =>
    cases rest with
    | mk calls delays => cases res <;> simp

/-- An upstream that always replies HTTP 500 with no parsable body. -/
def alwaysFail500 : GeminiPayload → Nat → AttemptOutcome :=
  fun _ _ => .httpResponse 500 none

/-- Zero jitter, for concrete runs. -/
def zeroJitter : Nat → Rat := fun _ => 0

/-- Jitter of half a millisecond on every attempt, inside the `[0, 1000)`
range of `Math.random() * 1000`. -/
def halfJitter : Nat → Rat := fun _ => 1 / 2

/-- Two grounding attributions: the first has a `uri` but no `title`, the
second has both. -/
def sampleAttrs : List GroundingAttribution :=
  [⟨some ⟨some "u1", none⟩⟩, ⟨some ⟨some "u2", some "t2"⟩⟩]

/-- A candidate with text "hello" and the two sample attributions. -/
def sampleCandidate : Candidate :=
  ⟨some ⟨some [⟨some "hello"⟩]⟩, some ⟨some sampleAttrs⟩⟩

/-- A well-formed upstream body carrying `sampleCandidate`. -/
def sampleBody : GeminiResult := ⟨some [sampleCandidate]⟩

/-- An upstream that fails with HTTP 500 on attempts 0 through 3 and returns
`sampleBody` with HTTP 200 on attempt 4. -/
def failThenSucceed : GeminiPayload → Nat → AttemptOutcome :=
  fun _ i => if i < 4 then .httpResponse 500 none else .httpResponse 200 (some sampleBody)

/-! ## Claim theorems -/

/-- Claim C1: when all 5 upstream attempts fail, both the client
`callGeminiApi` and the server `POST /chat` route return the fixed fallback
`ChatResponse` with empty `sources` after exactly 5 attempts; the result is
a total value of the embedding, never a propagated exception. -/
theorem chat_proxy_exhaustion_returns_fixed_fallback
    (q : String) (ud : UserContext) (u : GeminiPayload → Nat → AttemptOutcome)
    (jitter : Nat → Rat)
    (hfail : ∀ i, i < MAX_RETRIES → attemptResult (u (buildPayload q ud) i) = none) :
    (callGeminiApi q ud u jitter).response = clientFallback
    ∧ (callGeminiApi q ud u jitter).calls = 5
    ∧ (serverChatRoute q ud u jitter).1.body = serverFallback
    ∧ (serverChatRoute q ud u jitter).2.1 = 5
    ∧ clientFallback.sources = []
    ∧ serverFallback.sources = [] := by
  have hall := retryLoop_all_fail (u (buildPayload q ud)) jitter MAX_RETRIES 0
    (fun k hk => by simpa using hfail k hk)
  refine ⟨?_, ?_, ?_, ?_, rfl, rfl⟩
  · unfold callGeminiApi
    rw [hall]
  · unfold callGeminiApi
    rw [hall]
    rfl
  · unfold serverChatRoute
    rw [hall]
  · unfold serverChatRoute
    rw [hall]
    rfl

theorem chat_proxy_exhaustion_fallback_instance :
    (callGeminiApi "What should I eat?" emptyUserContext alwaysFail500 zeroJitter).response
        = clientFallback
    ∧ (serverChatRoute "What should I eat?" emptyUserContext alwaysFail500 zeroJitter).2.1 = 5 := by
  have h := chat_proxy_exhaustion_returns_fixed_fallback "What should I eat?"
    emptyUserContext alwaysFail500 zeroJitter (fun i _ => rfl)
  exact ⟨h.1, h.2.2.2.1⟩

/-- Claim C2: when attempts 0 through 3 fail and attempt 4 returns a 2xx
response whose body has a non-empty primary-candidate text, both copies of
the proxy return the extracted `{ text, sources }` and make exactly 5
upstream calls. -/
theorem chat_proxy_success_on_fifth_attempt
    (q : String) (ud : UserContext) (u : GeminiPayload → Nat → AttemptOutcome)
    (jitter : Nat → Rat) (s : Nat) (body : GeminiResult) (c : Candidate) (t : String)
    (hfail : ∀ i, i < 4 → attemptResult (u (buildPayload q ud) i) = none)
    (hup : u (buildPayload q ud) 4 = .httpResponse s (some body))
    (hok : 200 ≤ s ∧ s ≤ 299)
    (hc : primaryCandidate body = some c)
    (ht : candidateText c = some t) (hne : t ≠ "") :
    (callGeminiApi q ud u jitter).response = ChatResponse.mk t (extractSources c)
    ∧ (callGeminiApi q ud u jitter).calls = 5
    ∧ (serverChatRoute q ud u jitter).1 = ServerReply.mk 200 (ChatResponse.mk t (extractSources c))
    ∧ (serverChatRoute q ud u jitter).2.1 = 5 := by
  have hsucc : attemptResult (u (buildPayload q ud) 4)
      = some (ChatResponse.mk t (extractSources c)) := by
    rw [attemptResult_eq_some_iff]
    exact ⟨s, body, c, t, hup, (responseOk_iff s).mpr hok, hc, ht, hne, rfl⟩
  have hrun := retryLoop_success_at (u (buildPayload q ud)) jitter 4 MAX_RETRIES 0
    (ChatResponse.mk t (extractSources c)) (by norm_num [MAX_RETRIES])
    (fun m hm => by simpa using hfail m hm) (by simpa using hsucc)
  refine ⟨?_, ?_, ?_, ?_⟩
  · unfold callGeminiApi
    rw [hrun]
  · unfold callGeminiApi
    rw [hrun]
  · unfold serverChatRoute
    rw [hrun]
  · unfold serverChatRoute
    rw [hrun]

theorem chat_proxy_fifth_attempt_instance :
    (callGeminiApi "hi" emptyUserContext failThenSucceed zeroJitter).response
        = ChatResponse.mk "hello" [Source.mk (some "u2") (some "t2")]
    ∧ (callGeminiApi "hi" emptyUserContext failThenSucceed zeroJitter).calls = 5 := by
  have h := chat_proxy_success_on_fifth_attempt "hi" emptyUserContext failThenSucceed
    zeroJitter 200 sampleBody sampleCandidate "hello"
    (fun i hi => by simp [failThenSucceed, hi, attemptResult, responseOk])
    (by norm_num [failThenSucceed]) (by norm_num) rfl rfl (by decide)
  refine ⟨?_, h.2.1⟩
  rw [h.1]
  rfl

/-- Claim C3: the retry loop treats an attempt as a success if and only if
the HTTP status is 2xx and the body parses with a non-empty text string at
`candidates[0].content.parts[0].text`; moreover a success never carries an
empty text. -/
theorem attempt_success_iff_ok_and_nonempty_text (o : AttemptOutcome) :
    ((attemptResult o).isSome = true ↔
      ∃ s body c t, o = .httpResponse s (some body) ∧ (200 ≤ s ∧ s ≤ 299) ∧
        primaryCandidate body = some c ∧ candidateText c = some t ∧ t ≠ "")
    ∧ (∀ r, attemptResult o = some r → r.text ≠ "") := by
  constructor
  · rw [Option.isSome_iff_exists]
    constructor
    · rintro ⟨resp, hresp⟩
      obtain ⟨s, body, c, t, ho, hok, hc, ht, hne, -⟩ :=
        (attemptResult_eq_some_iff o resp).mp hresp
      exact ⟨s, body, c, t, ho, (responseOk_iff s).mp hok, hc, ht, hne⟩
    · rintro ⟨s, body, c, t, ho, hok, hc, ht, hne⟩
      refine ⟨ChatResponse.mk t (extractSources c), ?_⟩
      rw [attemptResult_eq_some_iff]
      exact ⟨s, body, c, t, ho, (responseOk_iff s).mpr hok, hc, ht, hne, rfl⟩
  · intro r hr
    obtain ⟨s, body, c, t, ho, hok, hc, ht, hne, hresp⟩ :=
      (attemptResult_eq_some_iff o r).mp hr
    rw [hresp]
    exact hne

theorem attempt_success_instance :
    sampleBody.candidates ≠ none ∧
    (ChatResponse.mk "hello" [Source.mk (some "u2") (some "t2")]).text ≠ "" := by
  refine ⟨by decide, ?_⟩
  exact (attempt_success_iff_ok_and_nonempty_text
      (AttemptOutcome.httpResponse 200 (some sampleBody))).2
    (ChatResponse.mk "hello" [Source.mk (some "u2") (some "t2")]) (by decide)

/-- Claim C4: the normalizer maps each grounding attribution to
`{ uri: attr.web?.uri, title: attr.web?.title }` and drops exactly the
entries whose `uri` or `title` is falsy, keeping the remaining entries in
upstream order (the map of the order-preserving filter); on a payload with
one uri-only attribution and one complete attribution, only the complete
entry survives. -/
theorem normalizer_drops_incomplete_sources (c : Candidate) (gm : GroundingMetadata)
    (attrs : List GroundingAttribution)
    (hgm : c.groundingMetadata = some gm)
    (hattrs : gm.groundingAttributions = some attrs) :
    extractSources c =
      (attrs.filter (fun a =>
          truthyOptStr (Option.bind a.web WebInfo.uri) &&
          truthyOptStr (Option.bind a.web WebInfo.title))).map
        (fun a => Source.mk (Option.bind a.web WebInfo.uri) (Option.bind a.web WebInfo.title))
    ∧ extractSources sampleCandidate = [Source.mk (some "u2") (some "t2")] := by
  constructor
  · simp only [extractSources, hgm, hattrs]
    rw [List.filter_map]
    rfl
  · decide

theorem normalizer_instance :
    extractSources sampleCandidate = [Source.mk (some "u2") (some "t2")] :=
  (normalizer_drops_incomplete_sources sampleCandidate ⟨some sampleAttrs⟩ sampleAttrs
    rfl rfl).2

/-- Helper: the four backoff delays of an exhausted run, spelled out. -/
theorem expectedDelays_zero_four (jitter : Nat → Rat) :
    expectedDelays jitter 0 4 =
      [geminiDelay jitter 0, geminiDelay jitter 1, geminiDelay jitter 2,
        geminiDelay jitter 3] := by
  rw [show (4 : Nat) = 3 + 1 from rfl, expectedDelays_succ]
  rw [show (3 : Nat) = 2 + 1 from rfl, expectedDelays_succ]
  rw [show (2 : Nat) = 1 + 1 from rfl, expectedDelays_succ]
  rw [show (1 : Nat) = 0 + 1 from rfl, expectedDelays_succ]
  norm_num [expectedDelays]

/-- Claim C5: on an exhausted run the loop sleeps exactly four backoff
delays (none after the fifth attempt); failed attempt `i < 4` sleeps
`min(cap, 2^i · 1000) + jitter i` for any cap of at least 8000 ms, the delay
lies in `[2^i · 1000, 2^i · 1000 + 1000)` when the jitter is in `[0, 1000)`,
the jitter-free bases strictly increase, and in general a run of `n` calls
sleeps exactly the first `n - 1` backoff delays. -/
theorem backoff_delay_schedule
    (q : String) (ud : UserContext) (u : GeminiPayload → Nat → AttemptOutcome)
    (jitter : Nat → Rat)
    (hj : ∀ i, 0 ≤ jitter i ∧ jitter i < 1000)
    (hfail : ∀ i, i < MAX_RETRIES → attemptResult (u (buildPayload q ud) i) = none) :
    (callGeminiApi q ud u jitter).delays =
      [geminiDelay jitter 0, geminiDelay jitter 1, geminiDelay jitter 2,
        geminiDelay jitter 3]
    ∧ (callGeminiApi q ud u jitter).delays.length + 1 = (callGeminiApi q ud u jitter).calls
    ∧ (∀ i, i < 4 → ∀ cap : Rat, 8000 ≤ cap →
        geminiDelay jitter i = min cap (2 ^ i * 1000) + jitter i)
    ∧ (∀ i, i < 4 →
        2 ^ i * 1000 ≤ geminiDelay jitter i ∧ geminiDelay jitter i < 2 ^ i * 1000 + 1000)
    ∧ (∀ i, i + 1 < 4 →
        geminiDelay jitter i - jitter i < geminiDelay jitter (i + 1) - jitter (i + 1))
    ∧ (∀ v : GeminiPayload → Nat → AttemptOutcome,
        (callGeminiApi q ud v jitter).delays =
          expectedDelays jitter 0 ((callGeminiApi q ud v jitter).calls - 1)) := by
  have hall := retryLoop_all_fail (u (buildPayload q ud)) jitter MAX_RETRIES 0
    (fun k hk => by simpa using hfail k hk)
  refine ⟨?_, ?_, ?_, ?_, ?_, ?_⟩
  · have : (callGeminiApi q ud u jitter).delays = expectedDelays jitter 0 4 := by
      unfold callGeminiApi
      rw [hall]
      rfl
    rw [this, expectedDelays_zero_four]
  · unfold callGeminiApi
    rw [hall]
    have : expectedDelays jitter 0 (MAX_RETRIES - 1) = expectedDelays jitter 0 4 := rfl
    rw [this, expectedDelays_zero_four]
    rfl
  · intro i hi cap hcap
    have hle : (2 : Rat) ^ i * 1000 ≤ cap := by
      refine le_trans ?_ hcap
      interval_cases i <;> norm_num
    rw [min_eq_right hle]
    rfl
  · intro i hi
    have h1 := (hj i).1
    have h2 := (hj i).2
    unfold geminiDelay
    constructor <;> linarith
  · intro i hi
    have hbase : ∀ k : Nat, geminiDelay jitter k - jitter k = 2 ^ k * 1000 := by
      intro k
      unfold geminiDelay
      ring
    rw [hbase, hbase]
    have hpow : (2 : Rat) ^ i < 2 ^ (i + 1) := by
      rw [pow_succ]
      nlinarith [pow_pos (show (0 : Rat) < 2 by norm_num) i]
    nlinarith
  · intro v
    have hc := callGeminiApi_trace q ud v jitter
    rw [hc.1, hc.2]
    exact retryLoop_trace (v (buildPayload q ud)) jitter MAX_RETRIES 0

theorem backoff_delay_instance :
    (callGeminiApi "hi" emptyUserContext alwaysFail500 halfJitter).delays =
      [geminiDelay halfJitter 0, geminiDelay halfJitter 1, geminiDelay halfJitter 2,
        geminiDelay halfJitter 3] ∧
    geminiDelay halfJitter 0 = min 30000 (2 ^ 0 * 1000) + halfJitter 0 := by
  have h := backoff_delay_schedule "hi" emptyUserContext alwaysFail500 halfJitter
    (fun i => ⟨by norm_num [halfJitter], by norm_num [halfJitter]⟩)
    (fun i _ => rfl)
  exact ⟨h.1, h.2.2.1 0 (by norm_num) 30000 (by norm_num)⟩

/-- Claim C6, counterexample: with an upstream that always replies HTTP 500,
the server route's exhausted-fallback reply carries status 500, not the
claimed 200. -/
theorem server_exhausted_reply_has_status_500 :
    (serverChatRoute "hi" emptyUserContext alwaysFail500 zeroJitter).1.status = 500
    ∧ (serverChatRoute "hi" emptyUserContext alwaysFail500 zeroJitter).1.status ≠ 200 := by
  exact ⟨rfl, by decide⟩

/-- Claim C6, amended: the server route replies with status 200 exactly on a
successful upstream completion; in the exhausted-fallback case it replies
with status 500 and the fallback body. -/
theorem server_route_status_by_outcome
    (q : String) (ud : UserContext) (u : GeminiPayload → Nat → AttemptOutcome)
    (jitter : Nat → Rat) :
    ((∀ i, i < MAX_RETRIES → attemptResult (u (buildPayload q ud) i) = none) →
      (serverChatRoute q ud u jitter).1 = ServerReply.mk 500 serverFallback)
    ∧ (∀ r calls delays,
        retryLoop (u (buildPayload q ud)) jitter 0 MAX_RETRIES = (some r, calls, delays) →
        (serverChatRoute q ud u jitter).1 = ServerReply.mk 200 r) := by
  constructor
  · intro hfail
    have hall := retryLoop_all_fail (u (buildPayload q ud)) jitter MAX_RETRIES 0
      (fun k hk => by simpa using hfail k hk)
    unfold serverChatRoute
    rw [hall]
  · intro r calls delays hrl
    unfold serverChatRoute
    rw [hrl]

theorem server_route_status_instance :
    (serverChatRoute "hi" emptyUserContext alwaysFail500 zeroJitter).1
      = ServerReply.mk 500 serverFallback :=
  (server_route_status_by_outcome "hi" emptyUserContext alwaysFail500 zeroJitter).1
    (fun _ _ => rfl)

/-- Claim C7, counterexample: the server route performs no validation of
`userQuery`, so for the empty query (which trims to the empty string) it
still dispatches upstream calls — five of them with an always-failing
upstream, not zero. -/
theorem server_route_calls_upstream_on_empty_query :
    "".trim = ""
    ∧ (serverChatRoute "" emptyUserContext alwaysFail500 zeroJitter).2.1 = 5
    ∧ (serverChatRoute "" emptyUserContext alwaysFail500 zeroJitter).2.1 ≠ 0 := by
  refine ⟨?_, rfl, by decide⟩
  simp [String.trim, Substring.trim, Substring.trimLeft, Substring.trimRight,
    Substring.takeWhileAux, Substring.takeRightWhileAux, String.toSubstring,
    Substring.toString, String.extract]

/-- Claim C7, amended: the client UI entry point `handleChatSend` dispatches
no network call when the input trims to the empty string, but the server
route performs no such validation and always makes at least one upstream
call, whatever the query. -/
theorem empty_query_client_short_circuit
    (chatInput : String) (isTyping : Bool) (ud : UserContext)
    (u : GeminiPayload → Nat → AttemptOutcome) (jitter : Nat → Rat)
    (h : chatInput.trim = "") :
    handleChatSend chatInput isTyping ud u jitter = (none, 0)
    ∧ (∀ q : String, 1 ≤ (serverChatRoute q ud u jitter).2.1) := by
  constructor
  · unfold handleChatSend
    rw [h]
    simp
  · intro q
    rw [serverChatRoute_trace]
    exact retryLoop_calls_pos _ jitter MAX_RETRIES 0 (by norm_num [MAX_RETRIES])

theorem empty_query_short_circuit_instance :
    handleChatSend "" false emptyUserContext alwaysFail500 zeroJitter = (none, 0) :=
  (empty_query_client_short_circuit "" false emptyUserContext alwaysFail500 zeroJitter
    (by simp [String.trim, Substring.trim, Substring.trimLeft, Substring.trimRight,
      Substring.takeWhileAux, Substring.takeRightWhileAux, String.toSubstring,
      Substring.toString, String.extract])).1

/-- Helper: `profileContext` split at the Health Issues field. -/
theorem profileContext_decomp (ctx : UserContext) :
    profileContext ctx =
      ("\n        User Profile Summary:\n        Name: " ++ renderName ctx ++
        "\n        Age: " ++ renderAge ctx ++
        "\n        Weight: " ++ renderWeight ctx ++ " kg, Height: " ++ renderHeight ctx ++
        " cm" ++ "\n        Goal: " ++ renderGoal ctx ++
        "\n        Region: " ++ renderRegion ctx ++
        "\n        Diet Preference: " ++ renderDietPreference ctx ++
        "\n        Health Issues: ") ++ renderHealthIssues ctx ++
      ("\n        Allergies: " ++ renderAllergies ctx ++ "\n    ") := by
  simp [profileContext, String.append_assoc]

/-- Claim C8: every absent optional context field renders as its fixed
fallback token — `N/A` for name, age, weight, height and diet preference,
`General Health` for goal, `All India` for region, `None` for the list
fields — and the all-absent context renders the full profile block with
every fallback token and no `undefined` or empty-string artifacts; the
composed system prompt embeds that block. -/
theorem absent_fields_render_fallback_tokens (ctx : UserContext) :
    (ctx.name = .undef → renderName ctx = "N/A")
    ∧ (ctx.age = .undef → renderAge ctx = "N/A")
    ∧ (ctx.weight = .undef → renderWeight ctx = "N/A")
    ∧ (ctx.height = .undef → renderHeight ctx = "N/A")
    ∧ (ctx.goal = .undef → renderGoal ctx = "General Health")
    ∧ (ctx.region = .undef → renderRegion ctx = "All India")
    ∧ (ctx.dietPreference = .undef → renderDietPreference ctx = "N/A")
    ∧ (ctx.healthIssues = .undef → renderHealthIssues ctx = "None")
    ∧ (ctx.allergies = .undef → renderAllergies ctx = "None")
    ∧ profileContext emptyUserContext =
        "\n        User Profile Summary:\n        Name: N/A\n        Age: N/A\n        Weight: N/A kg, Height: N/A cm\n        Goal: General Health\n        Region: All India\n        Diet Preference: N/A\n        Health Issues: None\n        Allergies: None\n    "
    ∧ (∃ p q, systemPrompt ctx = p ++ profileContext ctx ++ q) := by
  refine ⟨?_, ?_, ?_, ?_, ?_, ?_, ?_, ?_, ?_, by rfl, ?_⟩
  · intro h
    simp [renderName, jsOr, h, truthy]
  · intro h
    simp [renderAge, jsOr, h, truthy]
  · intro h
    simp [renderWeight, jsOr, h, truthy]
  · intro h
    simp [renderHeight, jsOr, h, truthy]
  · intro h
    simp [renderGoal, jsOr, h, truthy]
  · intro h
    simp [renderRegion, jsOr, h, truthy]
  · intro h
    simp [renderDietPreference, jsOr, h, truthy]
  · intro h
    simp [renderHealthIssues, arrayToString, jsOr, h, truthy]
  · intro h
    simp [renderAllergies, arrayToString, jsOr, h, truthy]
  · exact ⟨systemPromptIntro ++ jsOr ctx.region "India" ++ systemPromptMiddle,
      "\n    ", by simp [systemPrompt, String.append_assoc]⟩

theorem absent_fields_instance :
    renderName emptyUserContext = "N/A"
    ∧ renderGoal emptyUserContext = "General Health" := by
  have h := absent_fields_render_fallback_tokens emptyUserContext
  exact ⟨h.1 rfl, h.2.2.2.2.1 rfl⟩

/-- Claim C9, counterexample: a singleton list holding the empty string is
not rendered as its comma-separated join (the empty string) — the code falls
back to `None` because the join is falsy. -/
theorem singleton_empty_list_renders_none :
    renderHealthIssues
        ⟨.undef, .undef, .undef, .undef, .undef, .undef, .undef, .arr [""], .undef⟩
      = "None"
    ∧ String.intercalate ", " [""] = ""
    ∧ renderHealthIssues
        ⟨.undef, .undef, .undef, .undef, .undef, .undef, .undef, .arr [""], .undef⟩
      ≠ String.intercalate ", " [""] := by
  refine ⟨by decide, by decide, by decide⟩

/-- Claim C9, amended: a list-valued field renders as the comma-separated
join of its entries whenever that join is non-empty — in particular
`["A", "B"]` renders exactly as `"A, B"` inside the prompt — and any list
whose join is empty (the empty list, and degenerate lists of empty strings)
renders as the fallback token `None`, never as the empty string. -/
theorem list_fields_render_join_or_none (ctx : UserContext) (xs : List String) :
    (ctx.healthIssues = .arr xs →
      renderHealthIssues ctx =
        (if String.intercalate ", " xs = "" then "None" else String.intercalate ", " xs))
    ∧ (ctx.allergies = .arr xs →
      renderAllergies ctx =
        (if String.intercalate ", " xs = "" then "None" else String.intercalate ", " xs))
    ∧ (ctx.healthIssues = .arr ["A", "B"] → renderHealthIssues ctx = "A, B")
    ∧ (ctx.healthIssues = .arr [] → renderHealthIssues ctx = "None")
    ∧ (ctx.allergies = .arr [] → renderAllergies ctx = "None")
    ∧ (ctx.healthIssues = .arr ["A", "B"] →
        ∃ p q, profileContext ctx = p ++ "A, B" ++ q) := by
  refine ⟨?_, ?_, ?_, ?_, ?_, ?_⟩
  · intro h
    by_cases hj : String.intercalate ", " xs = ""
    · simp [renderHealthIssues, arrayToString, jsOr, h, truthy, display, hj]
    · simp [renderHealthIssues, arrayToString, jsOr, h, truthy, display, hj]
  · intro h
    by_cases hj : String.intercalate ", " xs = ""
    · simp [renderAllergies, arrayToString, jsOr, h, truthy, display, hj]
    · simp [renderAllergies, arrayToString, jsOr, h, truthy, display, hj]
  · intro h
    unfold renderHealthIssues
    rw [h]
    decide
  · intro h
    unfold renderHealthIssues
    rw [h]
    decide
  · intro h
    unfold renderAllergies
    rw [h]
    decide
  · intro h
    have hr : renderHealthIssues ctx = "A, B" := by
      unfold renderHealthIssues
      rw [h]
      decide
    exact ⟨_, _, by rw [profileContext_decomp, hr]⟩

theorem list_fields_instance :
    renderHealthIssues
        ⟨.undef, .undef, .undef, .undef, .undef, .undef, .undef, .arr ["A", "B"], .undef⟩
      = "A, B" :=
  (list_fields_render_join_or_none
    ⟨.undef, .undef, .undef, .undef, .undef, .undef, .undef, .arr ["A", "B"], .undef⟩
    ["A", "B"]).2.2.1 rfl

/-- Replace the `age` field. -/
def withAge (ctx : UserContext) (v : JSVal) : UserContext :=
  ⟨ctx.name, v, ctx.weight, ctx.height, ctx.goal, ctx.region, ctx.dietPreference,
    ctx.healthIssues, ctx.allergies⟩

/-- Replace the `weight` field. -/
def withWeight (ctx : UserContext) (v : JSVal) : UserContext :=
  ⟨ctx.name, ctx.age, v, ctx.height, ctx.goal, ctx.region, ctx.dietPreference,
    ctx.healthIssues, ctx.allergies⟩

/-- Replace the `name` field. -/
def withName (ctx : UserContext) (v : JSVal) : UserContext :=
  ⟨v, ctx.age, ctx.weight, ctx.height, ctx.goal, ctx.region, ctx.dietPreference,
    ctx.healthIssues, ctx.allergies⟩

/-- Replace the `healthIssues` field. -/
def withHealthIssues (ctx : UserContext) (v : JSVal) : UserContext :=
  ⟨ctx.name, ctx.age, ctx.weight, ctx.height, ctx.goal, ctx.region, ctx.dietPreference,
    v, ctx.allergies⟩

/-- Claim C10: a present-but-falsy field value (the number 0, the empty
string, or — through `arrayToString` — the empty list) renders exactly like
an absent field, so the composed prompt cannot distinguish, for example, age
0 or weight 0 from a missing age or weight. -/
theorem falsy_fields_render_like_absent :
    (∀ v fb, truthy v = false → jsOr v fb = jsOr JSVal.undef fb)
    ∧ (∀ v fb, truthy v = false →
        jsOr (arrayToString v) fb = jsOr (arrayToString JSVal.undef) fb)
    ∧ truthy (JSVal.num 0) = false
    ∧ truthy (JSVal.str "") = false
    ∧ arrayToString (JSVal.arr []) = JSVal.str ""
    ∧ (∀ ctx, profileContext (withAge ctx (JSVal.num 0))
        = profileContext (withAge ctx JSVal.undef))
    ∧ (∀ ctx, profileContext (withWeight ctx (JSVal.num 0))
        = profileContext (withWeight ctx JSVal.undef))
    ∧ (∀ ctx, profileContext (withName ctx (JSVal.str ""))
        = profileContext (withName ctx JSVal.undef))
    ∧ (∀ ctx, profileContext (withHealthIssues ctx (JSVal.arr []))
        = profileContext (withHealthIssues ctx JSVal.undef)) := by
  refine ⟨?_, ?_, rfl, by decide, by decide, ?_, ?_, ?_, ?_⟩
  · intro v fb h
    unfold jsOr
    rw [h]
    rfl
  · intro v fb h
    cases v with
    | undef => rfl
    | str s =>
      have hs : s = "" := by
        by_contra hne
        simp [truthy, hne] at h
      subst hs
      rfl
    | num n =>
      have hn : n = 0 := by
        by_contra hne
        simp [truthy, hne] at h
      subst hn
      rfl
    | arr xs => simp [truthy] at h
  · intro ctx
    rfl
  · intro ctx
    rfl
  · intro ctx
    rfl
  · intro ctx
    rfl

theorem falsy_fields_instance :
    jsOr (JSVal.num 0) "N/A" = jsOr JSVal.undef "N/A" :=
  falsy_fields_render_like_absent.1 (JSVal.num 0) "N/A" rfl

end SwasthDiet
